import Mathlib

/-!
Verification of the YouTube summarizer pipeline (`youtube-summarizer.py`).

The development shallowly embeds the program: pure string manipulation is
translated to Lean functions over `String`/`List Char`; the external
collaborators (yt_dlp metadata lookup, YouTubeTranscriptApi, the HTTP POST to
the Claude API, the filesystem) are modelled as explicit inputs and outputs of
the functions that call them; Python exceptions become `Except`, the
`None` failure signal becomes `Option.none`, and `logger` calls become an
accumulated list of message strings.
-/

namespace YT

/-! ## Model of `urllib.parse.urlparse`, restricted to what the program uses.

Python strings are modelled as Lean `String`s (lists of unicode characters);
percent-decoding of a multi-byte UTF-8 escape sequence is modelled
byte-by-byte (each decoded byte becomes the character with that code), which
is faithful for the ASCII escapes relevant here. -/

/-- Characters allowed in a URL scheme (CPython `scheme_chars`). -/
def isSchemeChar (c : Char) : Bool :=
  c.isAlphanum || c = '+' || c = '-' || c = '.'

/-- Scan for the first colon, returning the (reversed-accumulator corrected)
text before it and the remainder after it, as CPython `url.find(':')` does. -/
def scanScheme (acc : List Char) : List Char → Option (List Char × List Char)
  | [] => none
  | c :: rest => if c = ':' then some (acc.reverse, rest) else scanScheme (c :: acc) rest

/-- Split off the scheme, as CPython `urlsplit` does: the text before the first
colon is a scheme when it is nonempty, starts with a letter and consists of
scheme characters; it is lowercased. -/
def splitScheme (l : List Char) : Option (List Char) × List Char :=
  match scanScheme [] l with
  | none => (none, l)
  | some (sch, rest) =>
    match sch with
    | [] => (none, l)
    | c :: cs =>
      if c.isAlpha && (c :: cs).all isSchemeChar then
        (some ((c :: cs).map Char.toLower), rest)
      else (none, l)

/-- Scan the netloc: everything up to the first of `/`, `?` or `#`
(CPython `_splitnetloc`). -/
def splitNetlocChars : List Char → List Char × List Char
  | [] => ([], [])
  | c :: rest =>
    if c = '/' || c = '?' || c = '#' then ([], c :: rest)
    else
      let p := splitNetlocChars rest
      (c :: p.1, p.2)

/-- Split a list at the first occurrence of `sep`: text before it, and
`some` remainder when found (Python `str.partition` / `split(sep, 1)`). -/
def splitAtChar (sep : Char) : List Char → List Char × Option (List Char)
  | [] => ([], none)
  | c :: rest =>
    if c = sep then ([], some rest)
    else
      let p := splitAtChar sep rest
      (c :: p.1, p.2)

/-- Text after the last `@`, as CPython `netloc.rpartition('@')[2]`. -/
def afterLastAt (l : List Char) : List Char :=
  (l.reverse.takeWhile (fun c => c ≠ '@')).reverse

/-- Hostname of a netloc (CPython `_hostinfo` plus the `hostname` property):
drop userinfo, handle a bracketed IPv6 literal, strip the port, lowercase;
an empty hostname is `none`. -/
def hostOfNetloc (nl : List Char) : Option String :=
  let hi := afterLastAt nl
  let h :=
    if hi.contains '[' then ((hi.dropWhile (fun c => c ≠ '[')).drop 1).takeWhile (fun c => c ≠ ']')
    else hi.takeWhile (fun c => c ≠ ':')
  if h = [] then none
  else some (String.mk (h.map Char.toLower))

/-- Result of `urlparse`: only the components the program reads. -/
structure ParsedUrl where
  scheme : Option String
  hostname : Option String
  path : String
  query : String
  fragment : String
deriving Repr, DecidableEq

/-- Characters of CPython `_WHATWG_C0_CONTROL_OR_SPACE`: the C0 control
characters and the space. -/
def isC0OrSpace (c : Char) : Bool := c.toNat ≤ 32

/-- Characters of CPython `_UNSAFE_URL_BYTES_TO_REMOVE`: tab, CR, LF. -/
def isUnsafeUrlChar (c : Char) : Bool := c = '\t' || c = '\r' || c = '\n'

/-- Sanitization CPython `urlsplit` applies before parsing: strip leading C0
control characters and spaces, then remove every tab, CR and LF. -/
def sanitizeUrl (l : List Char) : List Char :=
  (l.dropWhile isC0OrSpace).filter (fun c => !(isUnsafeUrlChar c))

/-- Split the fragment at the first `#`, then the query at the first `?`, and
assemble the parse result (tail of CPython `urlsplit` plus the component
properties). -/
def parseRest (sch : Option (List Char)) (nl rest : List Char) : ParsedUrl :=
  let fsplit := splitAtChar '#' rest
  let frag := fsplit.2.getD []
  let qsplit := splitAtChar '?' fsplit.1
  let q := qsplit.2.getD []
  { scheme := sch.map String.mk
    hostname := hostOfNetloc nl
    path := String.mk qsplit.1
    query := String.mk q
    fragment := String.mk frag }

/-- Model of `urllib.parse.urlparse` for hierarchical URLs: sanitize, split
the scheme, then the netloc after `//` — raising `ValueError` (modelled as
`Except.error`) when the netloc contains `[` without `]` or `]` without `[`,
as CPython `urlsplit` does — then the fragment at the first `#`, then the
query at the first `?`. -/
def urlparse (url : String) : Except String ParsedUrl :=
  let u := sanitizeUrl url.data
  let s := splitScheme u
  match s.2 with
  | '/' :: '/' :: r =>
    let nlr := splitNetlocChars r
    if (nlr.1.contains '[' && !(nlr.1.contains ']')) ||
       (nlr.1.contains ']' && !(nlr.1.contains '[')) then
      .error "ValueError: Invalid IPv6 URL"
    else .ok (parseRest s.1 nlr.1 nlr.2)
  | _ => .ok (parseRest s.1 [] s.2)

/-! ## Model of `urllib.parse.parse_qs(...).get('v', [None])[0]` -/

/-- Numeric value of a hex digit, if any. -/
def hexDigitVal (c : Char) : Option Nat :=
  if '0' ≤ c ∧ c ≤ '9' then some (c.toNat - '0'.toNat)
  else if 'a' ≤ c ∧ c ≤ 'f' then some (c.toNat - 'a'.toNat + 10)
  else if 'A' ≤ c ∧ c ≤ 'F' then some (c.toNat - 'A'.toNat + 10)
  else none

/-- Prepend a character onto the first chunk of a split result. -/
def consHead (c : Char) : List (List Char) → List (List Char)
  | [] => [[c]]
  | h :: t => (c :: h) :: t

/-- Python `str.split(sep)` for a one-character separator: always returns at
least one (possibly empty) chunk and keeps empty chunks. -/
def splitSep (sep : Char) : List Char → List (List Char)
  | [] => [[]]
  | c :: rest => if c = sep then [] :: splitSep sep rest else consHead c (splitSep sep rest)

/-- Decode one chunk that followed a `%` sign (CPython `unquote` iterates over
`string.split('%')`): when the chunk starts with two hex digits they become the
character with that code (byte-level model of the UTF-8 byte, faithful for the
ASCII escapes relevant here), otherwise the `%` is kept literally. -/
def decodeChunk (chunk : List Char) : List Char :=
  match chunk with
  | a :: b :: rest =>
    match hexDigitVal a, hexDigitVal b with
    | some x, some y => Char.ofNat (16 * x + y) :: rest
    | _, _ => '%' :: chunk
  | _ => '%' :: chunk

/-- Percent-decoding (CPython `unquote`): split on `%` and decode each chunk
that followed a `%`. -/
def percentDecode (l : List Char) : List Char :=
  match splitSep '%' l with
  | [] => []
  | first :: chunks => first ++ (chunks.map decodeChunk).flatten

/-- Python `unquote_plus`: replace `+` by a space, then percent-decode. -/
def unquotePlusChars (l : List Char) : List Char :=
  percentDecode (l.map (fun c => if c = '+' then ' ' else c))

/-- Python `name_value.split('=', 1)` restricted to its use in `parse_qsl`:
`none` when there is no `=` (the pair is then skipped). -/
def pySplitEq (l : List Char) : Option (List Char × List Char) :=
  match splitAtChar '=' l with
  | (_, none) => none
  | (n, some v) => some (n, v)

/-- Model of `urllib.parse.parse_qsl` with default arguments: split the query
on `&`; skip empty chunks, chunks without `=` and chunks with an empty value;
unquote names and values. -/
def parse_qsl (q : String) : List (String × String) :=
  (splitSep '&' q.data).filterMap fun nv =>
    match nv with
    | [] => none
    | _ :: _ =>
      match pySplitEq nv with
      | none => none
      | some (n, v) =>
        if v = [] then none
        else some (String.mk (unquotePlusChars n), String.mk (unquotePlusChars v))

/-- Model of `parse_qs(query).get('v', [None])[0]`: the value of the first
`v` pair, if any (`parse_qs` groups values per key in first-seen order, so
element 0 of the `v` entry is the first `v` value of the query). -/
def qsGetV (q : String) : Option String :=
  ((parse_qsl q).find? (fun p => p.1 = "v")).map (fun p => p.2)

/-! ## `extract_video_id` -/

/-- Python `str.startswith`, at character level. -/
def startsWithChars : List Char → List Char → Bool
  | [], _ => true
  | _ :: _, [] => false
  | p :: ps, c :: cs => p = c && startsWithChars ps cs

/-- Python `path.startswith(pfx)`. -/
def pyStartsWith (s pfx : String) : Bool := startsWithChars pfx.data s.data

/-- Embedding of `extract_video_id` (lines 51-62): recognize the `youtu.be`
short-link host (returning `path[1:]`), the canonical hosts with `/watch` and
a `v` query parameter, and the `/embed/` and `/v/` path shapes (returning
`path.split('/')[2]`, which exists whenever the prefix test succeeded);
everything else is `None`. There is no try/except, so a `ValueError` raised
by `urlparse` propagates (`Except.error`). -/
def extract_video_id (url : String) : Except String (Option String) :=
  match urlparse url with
  | .error e => .error e
  | .ok p =>
    .ok
      (if p.hostname = some "youtu.be" then some (String.mk (p.path.data.drop 1))
       else if p.hostname = some "www.youtube.com" || p.hostname = some "youtube.com" then
         if p.path = "/watch" then qsGetV p.query
         else if pyStartsWith p.path "/embed/" || pyStartsWith p.path "/v/" then
           ((splitSep '/' p.path.data).get? 2).map String.mk
         else none
       else none)

/-! ## JSON model and the Claude API request (`claude_api_request`, lines 89-110)

The HTTP POST collaborator (`requests.post`) is modelled by passing the
response in as an argument; the request the function sends is `claude_request`
below. A response whose body is not JSON has `json := none` (so that
`response.json()` raises). -/

/-- Minimal JSON values. -/
inductive Json where
  | null
  | str (s : String)
  | num (n : Int)
  | bool (b : Bool)
  | arr (xs : List Json)
  | obj (fields : List (String × Json))
deriving Repr, Inhabited

/-- Python `j[k]` for a string key: a dict lookup; a missing key raises
`KeyError`, a non-dict raises `TypeError`. -/
def jsonGetKey (j : Json) (k : String) : Except String Json :=
  match j with
  | .obj fs =>
    match fs.find? (fun p => p.1 = k) with
    | some p => .ok p.2
    | none => .error ("KeyError: " ++ k)
  | _ => .error ("TypeError: value is not subscriptable with key " ++ k)

/-- Python `j[i]` for integer index 0: list (or string) indexing; out of range
raises `IndexError`, other values raise `TypeError` (a dict would raise
`KeyError`, also modelled as an error here). -/
def jsonIndexNat (j : Json) (i : Nat) : Except String Json :=
  match j with
  | .arr xs =>
    match xs.get? i with
    | some x => .ok x
    | none => .error "IndexError: list index out of range"
  | .str s =>
    match s.data.get? i with
    | some c => .ok (.str (String.mk [c]))
    | none => .error "IndexError: string index out of range"
  | _ => .error "TypeError: value is not subscriptable with an int"

/-- Evaluation of `response.json()['content'][0]['text']` on a parsed body. -/
def contentChain (j : Json) : Except String Json := do
  let c ← jsonGetKey j "content"
  let c0 ← jsonIndexNat c 0
  jsonGetKey c0 "text"

/-- Python `len()` on a JSON value: strings, lists and dicts are sized;
numbers, booleans and `None` raise `TypeError`. -/
def pyLen (v : Json) : Option Nat :=
  match v with
  | .str s => some s.length
  | .arr xs => some xs.length
  | .obj fs => some fs.length
  | _ => none

/-- Python truthiness of a JSON value (`if summary:`). -/
def pyTruthy (v : Json) : Bool :=
  match v with
  | .null => false
  | .str s => if s = "" then false else true
  | .num n => if n = 0 then false else true
  | .bool b => b
  | .arr [] => false
  | .arr (_ :: _) => true
  | .obj [] => false
  | .obj (_ :: _) => true

/-- An HTTP response: status code, parsed JSON body (`none` when the body is
not JSON, so that `.json()` raises), and raw body text. -/
structure HttpResponse where
  status_code : Nat
  json : Option Json
  text : String
deriving Repr

/-- Request that `claude_api_request` sends (lines 92-102), given the
configured API key: headers and JSON body. The model string and `max_tokens`
are fixed; the prompt is the sole user message. -/
def claude_request (apiKey prompt : String) : (List (String × String)) × Json :=
  ([("Content-Type", "application/json"),
    ("x-api-key", apiKey),
    ("anthropic-version", "2023-06-01")],
   Json.obj
     [("model", Json.str "claude-3-opus-20240229"),
      ("max_tokens", Json.num 1000),
      ("messages", Json.arr [Json.obj [("role", Json.str "user"), ("content", Json.str prompt)]])])

/-- Embedding of `claude_api_request` (lines 89-110). The Python function
returns the extracted value on a 200 response, returns `None` (logging the
body) on any other status, and raises on a 200 response whose payload does not
support `['content'][0]['text']` (there is no try/except): raising is modelled
as `Except.error`. The extracted value need not be a string: `len(content)`
in the log call succeeds on strings, lists and dicts (the value is then
returned as-is) and raises `TypeError` on numbers, booleans and `None`. -/
def claude_api_request (prompt : String) (resp : HttpResponse) :
    Except String (Option Json) × List String :=
  let log0 := ["Sending request to Claude Opus API",
               "Claude API response status code: " ++ toString resp.status_code]
  if resp.status_code = 200 then
    match resp.json with
    | none => (.error "JSONDecodeError: response body is not JSON", log0)
    | some j =>
      match contentChain j with
      | .error e => (.error e, log0)
      | .ok t =>
        match pyLen t with
        | some n =>
          (.ok (some t),
           log0 ++ ["Claude Opus API response received. Length: " ++
                    toString n ++ " characters"])
        | none => (.error "TypeError: object has no len", log0)
  else (.ok none, log0 ++ ["Error from Claude API: " ++ resp.text])

/-! ## Metadata, transcript, summary, writer -/

/-- Embedding of `get_video_details` (lines 64-75). The yt_dlp collaborator is
modelled by its `info.get('title', None)` result, passed as `infoTitle`. The
title is returned when truthy (Python `if video_title:`), so an empty or
absent title yields `None`. -/
def get_video_details (video_id : String) (infoTitle : Option String) :
    Option String × List String :=
  let log0 := ["Fetching details for video ID: " ++ video_id]
  match infoTitle with
  | some t =>
    if t = "" then (none, log0 ++ ["Video details not found"])
    else (some t, log0 ++ ["Video title: " ++ t])
  | none => (none, log0 ++ ["Video details not found"])

/-- One caption fragment returned by the transcript collaborator: the `text`
field and the timing fields (opaque in this model; the program discards
them). -/
structure TranscriptEntry where
  text : String
  start : String
  duration : String
deriving Repr, DecidableEq

/-- Embedding of `get_transcript` (lines 77-87). The collaborator either
returns a list of caption fragments or raises (`Except.error` with the
message); any raised error is caught, logged and collapsed to `None`. On
success the fragments' `text` fields are joined with single spaces, in
order. -/
def get_transcript (video_id : String) (res : Except String (List TranscriptEntry)) :
    Option String × List String :=
  let log0 := ["Fetching transcript for video ID: " ++ video_id]
  match res with
  | .ok entries =>
    let full := String.intercalate " " (entries.map (fun e => e.text))
    (some full,
     log0 ++ ["Transcript fetched successfully. Length: " ++
              toString full.length ++ " characters"])
  | .error e =>
    (none, log0 ++ ["An error occurred while fetching the transcript: " ++ e])

/-- Text of the summarization prompt before the transcript (lines 115-125). -/
def promptPre : String :=
  "Please provide a comprehensive summary of the following YouTube video transcript. The summary should:\n\n1. Capture the main topics and key points discussed in the video.\n2. Highlight any important insights, data, or arguments presented.\n3. Maintain the original tone and perspective of the speaker.\n4. Be structured in a clear and coherent manner.\n5. Be detailed enough to give a thorough understanding of the video content, but concise enough to be quickly digestible.\n\nHere\x27s the transcript:\n\n"

/-- Text of the summarization prompt after the transcript (lines 125-127). -/
def promptPost : String := "\n\nSummary:"

/-- Prompt built by `generate_summary` (lines 115-127): the fixed template
with the transcript interpolated. -/
def generate_prompt (content : String) : String :=
  promptPre ++ content ++ promptPost

/-- Embedding of `generate_summary` (lines 112-134): build the prompt, call
`claude_api_request` and log success or failure by Python truthiness of the
result (a raised exception skips the logging and propagates). -/
def generate_summary (content : String) (resp : HttpResponse) :
    Except String (Option Json) × List String :=
  let r := claude_api_request (generate_prompt content) resp
  let log0 := "Generating summary" :: r.2
  match r.1 with
  | .error e => (.error e, log0)
  | .ok s =>
    match s with
    | some v =>
      if pyTruthy v then (.ok s, log0 ++ ["Summary generated successfully"])
      else (.ok s, log0 ++ ["Failed to generate summary"])
    | none => (.ok s, log0 ++ ["Failed to generate summary"])

/-- Embedding of `save_to_file` (lines 136-146): the name of the written file
and its content, as the concatenation of the six `f.write` calls in order. -/
def save_to_file (video_id video_title summary transcript : String) :
    String × String :=
  let filename := video_id ++ "_summary.txt"
  let writes := ["Video Title: " ++ video_title ++ "\n",
                 "Video URL: https://www.youtube.com/watch?v=" ++ video_id ++ "\n\n",
                 "Summary:\n",
                 summary,
                 "\n\nFull Transcript:\n",
                 transcript]
  (filename, String.join writes)

/-- File state left behind when `save_to_file` is called with a non-string
summary: the first three `f.write` calls succeed, then `f.write(summary)`
raises `TypeError`; the `with open` block closes the file, which therefore
exists and holds the three chunks already written. -/
def save_to_file_partial (video_id video_title : String) : String × String :=
  (video_id ++ "_summary.txt",
   String.join ["Video Title: " ++ video_title ++ "\n",
                "Video URL: https://www.youtube.com/watch?v=" ++ video_id ++ "\n\n",
                "Summary:\n"])

/-! ## `main` (lines 148-183) -/

/-- Observable effects of one run of `main`: which collaborator steps were
invoked, the file written (name and content), an uncaught exception if one
propagated out, and the log. -/
structure RunEffects where
  calledDetails : Bool
  calledTranscript : Bool
  calledApi : Bool
  written : Option (String × String)
  crash : Option String
  log : List String
deriving Repr, DecidableEq

/-- Embedding of `main` (lines 148-183): the pipeline with its truthiness
(`if not video_id:`, `if video_title:`, `if transcript:`, `if summary:`)
short-circuiting. Collaborator behavior is passed in: the yt_dlp title field,
the transcript lookup result, and the HTTP response of the Claude API. -/
def main (url : String) (infoTitle : Option String)
    (trRes : Except String (List TranscriptEntry)) (resp : HttpResponse) : RunEffects :=
  match extract_video_id url with
  | .error e => ⟨false, false, false, none, some e, []⟩
  | .ok none =>
    ⟨false, false, false, none, none,
     ["Invalid YouTube URL. Please provide a valid YouTube video URL."]⟩
  | .ok (some id) =>
    if id = "" then
      ⟨false, false, false, none, none,
       ["Invalid YouTube URL. Please provide a valid YouTube video URL."]⟩
    else
      let d := get_video_details id infoTitle
      match d.1 with
      | none =>
        ⟨true, false, false, none, none,
         d.2 ++ ["Failed to get video details", "Finished processing video"]⟩
      | some title =>
        if title = "" then
          ⟨true, false, false, none, none,
           d.2 ++ ["Failed to get video details", "Finished processing video"]⟩
        else
          let t := get_transcript id trRes
          match t.1 with
          | none =>
            ⟨true, true, false, none, none,
             d.2 ++ t.2 ++ ["Failed to get transcript", "Finished processing video"]⟩
          | some tr =>
            if tr = "" then
              ⟨true, true, false, none, none,
               d.2 ++ t.2 ++ ["Failed to get transcript", "Finished processing video"]⟩
            else
              let g := generate_summary tr resp
              match g.1 with
              | .error e => ⟨true, true, true, none, some e, d.2 ++ t.2 ++ g.2⟩
              | .ok none =>
                ⟨true, true, true, none, none,
                 d.2 ++ t.2 ++ g.2 ++ ["Failed to generate summary", "Finished processing video"]⟩
              | .ok (some v) =>
                if pyTruthy v then
                  match v with
                  | .str s =>
                    let f := save_to_file id title s tr
                    ⟨true, true, true, some f, none,
                     d.2 ++ t.2 ++ g.2 ++
                     ["Summary and transcript saved to " ++ f.1, "Finished processing video"]⟩
                  | _ =>
                    let f := save_to_file_partial id title
                    ⟨true, true, true, some f,
                     some "TypeError: write() argument must be str",
                     d.2 ++ t.2 ++ g.2⟩
                else
                  ⟨true, true, true, none, none,
                   d.2 ++ t.2 ++ g.2 ++ ["Failed to generate summary", "Finished processing video"]⟩

/-! ## Lemmas about the scanning primitives -/

theorem generate_summary_err_status (content : String) (resp : HttpResponse)
    (h : resp.status_code ≠ 200) :
    (generate_summary content resp).1 = Except.ok none := by
  simp [generate_summary, claude_api_request, h]

theorem main_written_none_of_bad_status (url : String) (infoTitle : Option String)
    (trRes : Except String (List TranscriptEntry)) (resp : HttpResponse)
    (h : resp.status_code ≠ 200) : (main url infoTitle trRes resp).written = none := by
  have hg : ∀ c, (generate_summary c resp).1 = Except.ok none :=
    fun c => generate_summary_err_status c resp h
  unfold main
  simp only [hg]
  repeat' split
  all_goals rfl

/-! ## Claims -/

/-- C2: `save_to_file` writes exactly one file, named `<identifier>_summary.txt`,
whose content is exactly the title line, the canonical URL line, a blank line,
the `Summary:` label, the summary, blank lines, the `Full Transcript:` label
and the transcript, in that fixed order — each component appearing once, in
full. -/
theorem save_to_file_format (video_id video_title summary transcript : String) :
    (save_to_file video_id video_title summary transcript).1 =
      video_id ++ "_summary.txt" ∧
    (save_to_file video_id video_title summary transcript).2.data =
      "Video Title: ".data ++ video_title.data ++ "\n".data ++
      "Video URL: https://www.youtube.com/watch?v=".data ++ video_id.data ++
      "\n\n".data ++ "Summary:\n".data ++ summary.data ++
      "\n\nFull Transcript:\n".data ++ transcript.data := by
  constructor
  · rfl
  · simp [save_to_file, String.join, String.data_append]

/-- C3: in a run whose URL yields a usable identifier but whose metadata fetch
fails (absent or empty title), the metadata step runs and nothing after it
does: no transcript fetch, no summarization request, no file write. -/
theorem main_aborts_after_metadata_failure (url id : String) (infoTitle : Option String)
    (trRes : Except String (List TranscriptEntry)) (resp : HttpResponse)
    (hE : extract_video_id url = Except.ok (some id)) (hid : id ≠ "")
    (hT : infoTitle = none ∨ infoTitle = some "") :
    (main url infoTitle trRes resp).calledDetails = true ∧
    (main url infoTitle trRes resp).calledTranscript = false ∧
    (main url infoTitle trRes resp).calledApi = false ∧
    (main url infoTitle trRes resp).written = none := by
  have hD : (get_video_details id infoTitle).1 = none := by
    rcases hT with rfl | rfl <;> simp [get_video_details]
  unfold main
  rw [hE]
  simp [hid, hD]

theorem main_aborts_after_metadata_failure_witness :
    (main "https://youtu.be/abc" none (Except.error "e") ⟨200, none, ""⟩).calledDetails = true ∧
    (main "https://youtu.be/abc" none (Except.error "e") ⟨200, none, ""⟩).calledTranscript = false ∧
    (main "https://youtu.be/abc" none (Except.error "e") ⟨200, none, ""⟩).calledApi = false ∧
    (main "https://youtu.be/abc" none (Except.error "e") ⟨200, none, ""⟩).written = none :=
  main_aborts_after_metadata_failure "https://youtu.be/abc" "abc" none
    (Except.error "e") ⟨200, none, ""⟩ rfl (by decide) (Or.inl rfl)

/-- C4: when the generation API responds with a non-success status,
`claude_api_request` returns the `None` failure signal, the response body is
logged verbatim, and `main` writes no output artifact. -/
theorem claude_api_error_status_no_artifact (p url : String) (infoTitle : Option String)
    (trRes : Except String (List TranscriptEntry)) (resp : HttpResponse)
    (h : resp.status_code ≠ 200) :
    (claude_api_request p resp).1 = Except.ok none ∧
    ("Error from Claude API: " ++ resp.text) ∈ (claude_api_request p resp).2 ∧
    (main url infoTitle trRes resp).written = none := by
  refine ⟨by simp [claude_api_request, h], by simp [claude_api_request, h], ?_⟩
  exact main_written_none_of_bad_status url infoTitle trRes resp h

theorem claude_api_error_status_no_artifact_witness :
    (claude_api_request "p" ⟨500, none, "overloaded"⟩).1 = Except.ok none ∧
    ("Error from Claude API: " ++ "overloaded") ∈ (claude_api_request "p" ⟨500, none, "overloaded"⟩).2 ∧
    (main "https://youtu.be/abc" (some "T") (Except.ok [⟨"a", "0", "1"⟩])
        ⟨500, none, "overloaded"⟩).written = none :=
  claude_api_error_status_no_artifact "p" "https://youtu.be/abc" (some "T")
    (Except.ok [⟨"a", "0", "1"⟩]) ⟨500, none, "overloaded"⟩ (by decide)

/-- C5 (counterexample): on a success-status response whose JSON payload lacks
the `content` field, `claude_api_request` does not return the `None` failure
signal — the subscript lookup raises instead. -/
theorem claude_api_missing_content_not_none :
    (claude_api_request "p" ⟨200, some (Json.obj [("id", Json.str "x")]), "body"⟩).1 ≠
      Except.ok none := by
  intro h
  rw [show (claude_api_request "p" ⟨200, some (Json.obj [("id", Json.str "x")]), "body"⟩).1
        = Except.error "KeyError: content" from rfl] at h
  exact Except.noConfusion h

/-- C5 (amended): on a success-status response whose parsed payload makes
`['content'][0]['text']` fail (missing field, wrong type or empty array), the
lookup error propagates out of `claude_api_request` as an uncaught exception —
it neither returns generated text nor the `None` failure signal. -/
theorem claude_api_missing_content_raises (prompt e : String) (resp : HttpResponse) (j : Json)
    (h200 : resp.status_code = 200) (hj : resp.json = some j)
    (hc : contentChain j = Except.error e) :
    (claude_api_request prompt resp).1 = Except.error e := by
  simp [claude_api_request, h200, hj, hc]

theorem claude_api_missing_content_raises_witness :
    (claude_api_request "p" ⟨200, some (Json.obj []), "b"⟩).1 =
      Except.error "KeyError: content" :=
  claude_api_missing_content_raises "p" "KeyError: content" ⟨200, some (Json.obj []), "b"⟩
    (Json.obj []) rfl rfl rfl

/-- C6: on a successful transcript lookup, `get_transcript` returns the
fragments' `text` fields joined by single spaces in their original order, and
the timing fields are discarded; fragments `a`, `b`, `c` (whatever their
timings) yield `"a b c"`. -/
theorem get_transcript_joins_in_order (vid : String) (entries : List TranscriptEntry)
    (t1 t2 t3 u1 u2 u3 : String) :
    (get_transcript vid (Except.ok entries)).1 =
      some (String.intercalate " " (entries.map TranscriptEntry.text)) ∧
    (get_transcript vid
        (Except.ok [⟨"a", t1, u1⟩, ⟨"b", t2, u2⟩, ⟨"c", t3, u3⟩])).1 = some "a b c" :=
  ⟨rfl, rfl⟩

/-- C7: the prompt built by `generate_summary` contains the transcript text
verbatim as a contiguous substring, and it is what is sent to the generation
API: the sole user message of the request body is exactly that prompt. -/
theorem prompt_contains_transcript (content apiKey : String) :
    (∃ a b, generate_prompt content = a ++ content ++ b) ∧
    (claude_request apiKey (generate_prompt content)).2 =
      Json.obj
        [("model", Json.str "claude-3-opus-20240229"),
         ("max_tokens", Json.num 1000),
         ("messages", Json.arr
            [Json.obj [("role", Json.str "user"),
                       ("content", Json.str (generate_prompt content))]])] :=
  ⟨⟨promptPre, promptPost, rfl⟩, rfl⟩

/-- C8: whatever error the transcript collaborator raises, `get_transcript`
catches it, returns the single `None` failure signal, and records the
underlying error message in the log; no exception propagates. -/
theorem get_transcript_error_collapses (vid e : String) :
    get_transcript vid (Except.error e) =
      (none,
       ["Fetching transcript for video ID: " ++ vid,
        "An error occurred while fetching the transcript: " ++ e]) := rfl

/-- C9: the request `claude_api_request` sends is a JSON body with the fixed
model string, the fixed `max_tokens`, and the prompt as the sole user message,
under headers carrying the content type, the API key and the version token;
on a success response the returned summary is element 0's `text` field of the
`content` array. -/
theorem claude_request_shape (apiKey prompt : String) (resp : HttpResponse) (j : Json) (s : String)
    (h200 : resp.status_code = 200) (hj : resp.json = some j)
    (hc : contentChain j = Except.ok (Json.str s)) :
    claude_request apiKey prompt =
      ([("Content-Type", "application/json"),
        ("x-api-key", apiKey),
        ("anthropic-version", "2023-06-01")],
       Json.obj
         [("model", Json.str "claude-3-opus-20240229"),
          ("max_tokens", Json.num 1000),
          ("messages", Json.arr
             [Json.obj [("role", Json.str "user"), ("content", Json.str prompt)]])]) ∧
    (claude_api_request prompt resp).1 = Except.ok (some (Json.str s)) := by
  refine ⟨rfl, ?_⟩
  simp [claude_api_request, pyLen, h200, hj, hc]

theorem claude_request_shape_witness :
    (claude_api_request "p"
        ⟨200, some (Json.obj [("content", Json.arr [Json.obj [("text", Json.str "hi")]])]),
         "raw"⟩).1 = Except.ok (some (Json.str "hi")) :=
  (claude_request_shape "k" "p"
      ⟨200, some (Json.obj [("content", Json.arr [Json.obj [("text", Json.str "hi")]])]), "raw"⟩
      (Json.obj [("content", Json.arr [Json.obj [("text", Json.str "hi")]])])
      "hi" rfl rfl rfl).2

/-- C10: some supported-host URLs with an empty identifier segment make
`extract_video_id` return the empty string rather than `None`; `main` treats
both falsy results uniformly as failure and aborts before any collaborator
call. -/
theorem extract_video_id_empty_segment :
    extract_video_id "https://youtu.be/" = Except.ok (some "") ∧
    extract_video_id "https://www.youtube.com/embed/" = Except.ok (some "") ∧
    ∀ (url : String) (infoTitle : Option String)
      (trRes : Except String (List TranscriptEntry)) (resp : HttpResponse),
      (extract_video_id url = Except.ok none ∨ extract_video_id url = Except.ok (some "")) →
      (main url infoTitle trRes resp).calledDetails = false ∧
      (main url infoTitle trRes resp).calledTranscript = false ∧
      (main url infoTitle trRes resp).calledApi = false ∧
      (main url infoTitle trRes resp).written = none := by
  refine ⟨rfl, rfl, ?_⟩
  intro url infoTitle trRes resp h
  rcases h with h | h <;> simp [main, h]

theorem extract_video_id_empty_segment_witness :
    (main "https://youtu.be/" none (Except.error "e") ⟨200, none, ""⟩).calledDetails = false ∧
    (main "https://youtu.be/" none (Except.error "e") ⟨200, none, ""⟩).calledTranscript = false ∧
    (main "https://youtu.be/" none (Except.error "e") ⟨200, none, ""⟩).calledApi = false ∧
    (main "https://youtu.be/" none (Except.error "e") ⟨200, none, ""⟩).written = none :=
  extract_video_id_empty_segment.2.2 "https://youtu.be/" none (Except.error "e")
    ⟨200, none, ""⟩ (Or.inr rfl)

end YT
